import Mathlib

/-
  Verification development for the sphere-infra group-chat CLI
  (src/groupchat-cli/delete-group.js: the delete-group, create-group and
  list-groups scripts).  The scripts are shallowly embedded: each
  websocket message handler becomes a pure function from the handler
  state and the parsed inbound JSON value to the updated state and the
  list of observable actions (frame sends, delayed sends, console
  output, socket close, process exit), in the order the script performs
  them.  JSON.parse is embedded as an executable parser returning
  Option; a failed parse corresponds to the uncaught exception the
  scripts would raise.
-/

namespace GroupChat

/-- A JavaScript JSON value, plus `undef` for JavaScript `undefined`
(the result of out-of-range indexing and missing-field access). -/
inductive Json where
  | null
  | undef
  | bool (b : Bool)
  | num (n : Int)
  | str (s : String)
  | arr (elems : List Json)
  | obj (fields : List (String × Json))

/-- JavaScript truthiness of a value. -/
def Json.truthy : Json → Bool
  | .null => false
  | Json.undef => false
  | .bool b => b
  | .num n => n != 0
  | .str s => s != ""
  | .arr _ => true
  | .obj _ => true

/-- JavaScript `a || b` (used by the scripts only where the result is
again consumed as a value). -/
def jsOr (a b : Json) : Json := if a.truthy then a else b

/-- JavaScript strict equality against a string literal; every `===`
in the scripts compares against a string. -/
def jsStrEq : Json → String → Bool
  | .str s, t => s == t
  | _, _ => false

/-- JavaScript property access `o[k]` for a string key: object field
lookup (duplicate keys: the later field wins, as after JSON.parse),
`undefined` elsewhere. -/
def Json.getField : Json → String → Json
  | .obj fs, k => fs.foldl (fun acc kv => if kv.1 = k then kv.2 else acc) Json.undef
  | _, _ => Json.undef

/-- JavaScript indexing `v[i]` with a numeric index: array element,
string character, object lookup by the decimal key, else `undefined`. -/
def Json.idx : Json → Nat → Json
  | .arr l, i => l.getD i Json.undef
  | .str s, i =>
    match s.data.get? i with
    | some c => .str (String.mk [c])
    | none => Json.undef
  | .obj fs, i => Json.getField (.obj fs) (Nat.repr i)
  | _, _ => Json.undef

/- ------------------------------------------------------------------
   An executable JSON parser embedding JSON.parse.  Numbers keep their
   integer part (the scripts never consume fractional values).
   ------------------------------------------------------------------ -/

def openBrace : Char := Char.ofNat 123

def closeBrace : Char := Char.ofNat 125

def isJsonWs (c : Char) : Bool := c = ' ' || c = '\t' || c = '\n' || c = '\r'

def skipWs : List Char → List Char
  | [] => []
  | c :: cs => if isJsonWs c then skipWs cs else c :: cs

def hexVal (c : Char) : Option Nat :=
  if '0' ≤ c ∧ c ≤ '9' then some (c.toNat - 48)
  else if 'a' ≤ c ∧ c ≤ 'f' then some (c.toNat - 87)
  else if 'A' ≤ c ∧ c ≤ 'F' then some (c.toNat - 55)
  else none

def escChar (c : Char) : Option Char :=
  if c = '"' then some '"'
  else if c = '\\' then some '\\'
  else if c = '/' then some '/'
  else if c = 'b' then some (Char.ofNat 8)
  else if c = 'f' then some (Char.ofNat 12)
  else if c = 'n' then some '\n'
  else if c = 'r' then some '\r'
  else if c = 't' then some '\t'
  else none

/-- Parse the remainder of a JSON string literal (after the opening
quote), accumulating characters in reverse. -/
def pStringAux : List Char → List Char → Option (String × List Char)
  | [], _ => none
  | c :: cs, acc =>
    if c = '"' then some (String.mk acc.reverse, cs)
    else if c = '\\' then
      match cs with
      | 'u' :: h1 :: h2 :: h3 :: h4 :: rest =>
        match hexVal h1, hexVal h2, hexVal h3, hexVal h4 with
        | some a, some b, some c2, some d =>
          pStringAux rest (Char.ofNat (((a * 16 + b) * 16 + c2) * 16 + d) :: acc)
        | _, _, _, _ => none
      | e :: rest =>
        match escChar e with
        | some ec => pStringAux rest (ec :: acc)
        | none => none
      | [] => none
    else pStringAux cs (c :: acc)

/-- Parse one-or-more decimal digits as a natural number. -/
def pDigits (cs : List Char) : Option (Nat × List Char) :=
  let p := cs.span Char.isDigit
  if p.1.isEmpty then none
  else some (p.1.foldl (fun n c => n * 10 + (c.toNat - 48)) 0, p.2)

/-- Consume an optional fractional part lexically. -/
def skipFrac : List Char → Option (List Char)
  | '.' :: cs =>
    let p := cs.span Char.isDigit
    if p.1.isEmpty then none else some p.2
  | cs => some cs

/-- Consume an optional exponent part lexically. -/
def skipExp : List Char → Option (List Char)
  | [] => some []
  | c :: cs =>
    if c = 'e' || c = 'E' then
      let cs2 := match cs with
        | s :: cs3 => if s = '+' || s = '-' then cs3 else s :: cs3
        | [] => []
      let p := cs2.span Char.isDigit
      if p.1.isEmpty then none else some p.2
    else some (c :: cs)

/-- Parse a JSON number, keeping its integer part. -/
def pNum (cs : List Char) : Option (Json × List Char) :=
  let sp : Bool × List Char :=
    match cs with
    | '-' :: rest => (true, rest)
    | _ => (false, cs)
  match pDigits sp.2 with
  | none => none
  | some (n, r1) =>
    match skipFrac r1 with
    | none => none
    | some r2 =>
      match skipExp r2 with
      | none => none
      | some r3 =>
        some (Json.num (if sp.1 then -(Int.ofNat n) else Int.ofNat n), r3)

mutual

/-- Parse one JSON value (fuelled). -/
def pVal : Nat → List Char → Option (Json × List Char)
  | 0, _ => none
  | fuel + 1, cs =>
    match skipWs cs with
    | [] => none
    | c :: rest =>
      if c = '"' then
        match pStringAux rest [] with
        | some (s, r) => some (Json.str s, r)
        | none => none
      else if c = '[' then
        match skipWs rest with
        | ']' :: r => some (Json.arr [], r)
        | r => pArr fuel r []
      else if c = openBrace then
        match skipWs rest with
        | cb :: r =>
          if cb = closeBrace then some (Json.obj [], r)
          else pObj fuel (cb :: r) []
        | [] => none
      else if c = 't' then
        match rest with
        | 'r' :: 'u' :: 'e' :: r => some (Json.bool true, r)
        | _ => none
      else if c = 'f' then
        match rest with
        | 'a' :: 'l' :: 's' :: 'e' :: r => some (Json.bool false, r)
        | _ => none
      else if c = 'n' then
        match rest with
        | 'u' :: 'l' :: 'l' :: r => some (Json.null, r)
        | _ => none
      else pNum (c :: rest)

/-- Parse array elements after the opening bracket. -/
def pArr : Nat → List Char → List Json → Option (Json × List Char)
  | 0, _, _ => none
  | fuel + 1, cs, acc =>
    match pVal fuel cs with
    | none => none
    | some (v, r) =>
      match skipWs r with
      | ',' :: r2 => pArr fuel r2 (v :: acc)
      | ']' :: r2 => some (Json.arr (v :: acc).reverse, r2)
      | _ => none

/-- Parse object members after the opening brace. -/
def pObj : Nat → List Char → List (String × Json) → Option (Json × List Char)
  | 0, _, _ => none
  | fuel + 1, cs, acc =>
    match skipWs cs with
    | [] => none
    | c :: r =>
      if c = '"' then
        match pStringAux r [] with
        | none => none
        | some (k, r1) =>
          match skipWs r1 with
          | ':' :: r2 =>
            match pVal fuel r2 with
            | none => none
            | some (v, r3) =>
              match skipWs r3 with
              | ',' :: r4 => pObj fuel r4 ((k, v) :: acc)
              | cb :: r4 =>
                if cb = closeBrace then some (Json.obj ((k, v) :: acc).reverse, r4)
                else none
              | [] => none
          | _ => none
      else none

end

/-- Embedding of JSON.parse: `none` corresponds to the SyntaxError the
scripts leave uncaught in their message handlers. -/
def parseJson (s : String) : Option Json :=
  match pVal (s.length + 1) s.data with
  | some (v, rest) => if skipWs rest = [] then some v else none
  | none => none


/- ------------------------------------------------------------------
   Signed events and outbound frames.
   ------------------------------------------------------------------ -/

/-- An event template as passed to finalizeEvent.  Tag entries are kept
as Json values because the scripts place inbound Json (the AUTH
challenge, the invite code) directly into tag positions. -/
structure EventTemplate where
  kind : Nat
  created_at : Nat
  tags : List (List Json)
  content : String

/-- A signed event as returned by finalizeEvent (nostr-tools), which
fills in the content-addressed id, the signer public key and the
signature while copying kind, created_at, tags and content from the
template.  Signature bytes are not modelled. -/
structure SignedEvent where
  kind : Nat
  created_at : Nat
  tags : List (List Json)
  content : String
  id : String
  pubkey : String

/-- Embedding of finalizeEvent: the id derivation is supplied
externally (an `idOf` function in each script's configuration), the
template fields are copied verbatim. -/
def mkSignedEvent (t : EventTemplate) (idv pk : String) : SignedEvent :=
  { kind := t.kind, created_at := t.created_at, tags := t.tags,
    content := t.content, id := idv, pubkey := pk }

/-- The REQ filter shapes used by the scripts: a kinds list and an
optional `#d` tag-value list. -/
structure ReqFilter where
  kinds : List Nat
  dTags : Option (List String)

/-- Frames the scripts send on the websocket. -/
inductive OutFrame where
  | auth (e : SignedEvent)
  | event (e : SignedEvent)
  | req (label : String) (filter : ReqFilter)
  | close (label : String)

/-- Observable actions of a handler, in program order.  `delayedLog`
and `sendDelayedFrame` are the bodies of the setTimeout callbacks the
handlers install (the delay in milliseconds is recorded); `wsClose` is
ws.close(); `procExit` is process.exit. -/
inductive Action where
  | log (s : String)
  | logErr (s : String) (payload : Json)
  | sendFrame (f : OutFrame)
  | delayedLog (delayMs : Nat) (s : String)
  | sendDelayedFrame (delayMs : Nat) (f : OutFrame)
  | wsClose
  | procExit (code : Nat)

/-- All frames an action list puts on the wire, immediate and delayed,
in issue order. -/
def sentFrames (acts : List Action) : List OutFrame :=
  acts.filterMap fun a =>
    match a with
    | .sendFrame f => some f
    | .sendDelayedFrame _ f => some f
    | _ => none

/-- The auth events among the sent frames. -/
def authFramesOf (acts : List Action) : List SignedEvent :=
  (sentFrames acts).filterMap fun f =>
    match f with
    | .auth e => some e
    | _ => none

/-- NIP-29 kind constants used by the scripts. -/
def NIP29_CREATE_GROUP : Nat := 9007

def NIP29_DELETE_GROUP : Nat := 9008

def NIP29_CREATE_INVITE : Nat := 9009

def NIP29_GROUP_METADATA : Nat := 39000

/-- The authentication event template each script builds on an AUTH
challenge: kind 22242, relay tag then challenge tag, the challenge
taken verbatim from the frame's second element. -/
def authEventTemplate (relayUrl : String) (challenge : Json) (now : Nat) : EventTemplate :=
  { kind := 22242, created_at := now,
    tags := [[.str "relay", .str relayUrl], [.str "challenge", challenge]],
    content := "" }

/- ------------------------------------------------------------------
   delete-group.js
   ------------------------------------------------------------------ -/

/-- Configuration of a delete-group run: the relay URL as dialed, the
group id argument, the clock, and the externally supplied signing
identity (id derivation and public key). -/
structure DeleteArgs where
  relayUrl : String
  groupId : String
  now : Nat
  idOf : EventTemplate → String
  pubkey : String

/-- The delete-group event template built before connecting. -/
def deleteEventTemplate (a : DeleteArgs) : EventTemplate :=
  { kind := NIP29_DELETE_GROUP, created_at := a.now,
    tags := [[.str "h", .str a.groupId]], content := "" }

/-- The signed delete event (`signedEvent` in the script). -/
def deleteSignedEvent (a : DeleteArgs) : SignedEvent :=
  mkSignedEvent (deleteEventTemplate a) (a.idOf (deleteEventTemplate a)) a.pubkey

/-- The auth event the delete script signs for a given AUTH frame. -/
def deleteAuthEvent (a : DeleteArgs) (msg : Json) : SignedEvent :=
  mkSignedEvent (authEventTemplate a.relayUrl (msg.idx 1) a.now)
    (a.idOf (authEventTemplate a.relayUrl (msg.idx 1) a.now)) a.pubkey

/-- The delete script's ws message handler on an already-parsed frame.
The handler keeps no mutable state. -/
def deleteHandleParsed (a : DeleteArgs) (msg : Json) : List Action :=
  if jsStrEq (msg.idx 0) "AUTH" then
    [.log "Authenticating...",
     .sendFrame (.auth (deleteAuthEvent a msg)),
     .delayedLog 500 "Sending delete group event...",
     .sendDelayedFrame 500 (.event (deleteSignedEvent a))]
  else if jsStrEq (msg.idx 0) "OK" then
    let eventId := msg.idx 1
    let success := msg.idx 2
    let message := msg.idx 3
    if jsStrEq eventId (deleteSignedEvent a).id then
      (if success.truthy then [.log "Group deleted!"]
       else [.logErr "Failed to delete group:" message]) ++ [.wsClose]
    else []
  else []

/-- The delete script's ws message handler on the raw inbound text:
JSON.parse runs outside any try block, so an unparseable message is an
uncaught exception. -/
def deleteHandleRaw (a : DeleteArgs) (s : String) : Except Unit (List Action) :=
  match parseJson s with
  | none => .error ()
  | some m => .ok (deleteHandleParsed a m)

/-- The delete script's 15 second deadline handler. -/
def deleteTimeoutActions : List Action :=
  [.logErr "Timeout" Json.undef, .wsClose, .procExit 1]

/-- The delete script's ws error handler. -/
def deleteErrorActions : List Action :=
  [.logErr "WebSocket error:" Json.undef, .procExit 1]


/- ------------------------------------------------------------------
   create-group.js
   ------------------------------------------------------------------ -/

def base36Char (d : Nat) : Char :=
  if d < 10 then Char.ofNat (48 + d) else Char.ofNat (87 + d)

/-- Base-36 digits of a positive number, most significant first
(accumulator style). -/
def toBase36Aux : Nat → List Char → List Char
  | 0, acc => acc
  | n + 1, acc => toBase36Aux ((n + 1) / 36) (base36Char ((n + 1) % 36) :: acc)
termination_by n _ => n
decreasing_by simp_wf; omega

/-- JavaScript Number.prototype.toString(36) for a natural number. -/
def toBase36 (n : Nat) : String :=
  if n = 0 then "0" else String.mk (toBase36Aux n [])

/-- Lowercase ASCII letters or digits: the characters kept by the
replace(/[^a-z0-9]/g, '') strip. -/
def isLowerAlnum (c : Char) : Bool :=
  ('a' ≤ c && c ≤ 'z') || ('0' ≤ c && c ≤ '9')

/-- The lowercase-strip-truncate part of generateGroupId:
toLowerCase(), replace(/[^a-z0-9]/g, ''), slice(0, 24).  toLowerCase is
modelled by its ASCII action; only ASCII alphanumerics survive the
strip. -/
def generateGroupIdCore (groupName : String) : String :=
  String.mk (((groupName.data.map Char.toLower).filter isLowerAlnum).take 24)

/-- generateGroupId from create-group.js: the normalized identifier,
falling back (via JavaScript ||, empty string being falsy) to
'group' + Date.now().toString(36). -/
def generateGroupId (nowMs : Nat) (groupName : String) : String :=
  let core := generateGroupIdCore groupName
  if core = "" then "group" ++ toBase36 nowMs else core

/-- Configuration of a create-group run.  `randCode` is the outcome of
generateInviteCode's Math.random draws (supplied externally);
`description` is the optional second CLI argument. -/
structure CreateArgs where
  relayUrl : String
  sphereUrl : String
  name : String
  description : Option String
  isPrivate : Bool
  nowMs : Nat
  now : Nat
  idOf : EventTemplate → String
  pubkey : String
  randCode : String

/-- The group id derived from the name before connecting. -/
def createGroupId (a : CreateArgs) : String := generateGroupId a.nowMs a.name

/-- `let inviteCode = isPrivate ? generateInviteCode() : null`. -/
def createInviteCode (a : CreateArgs) : Json :=
  if a.isPrivate then .str a.randCode else .null

/-- The create-group event template (NIP-29 kind 9007 with h, name,
about and public tags). -/
def createEventTemplate (a : CreateArgs) : EventTemplate :=
  { kind := NIP29_CREATE_GROUP, created_at := a.now,
    tags := [[.str "h", .str (createGroupId a)],
             [.str "name", .str a.name],
             [.str "about", .str (a.description.getD "")],
             [.str "public", .str (if a.isPrivate then "false" else "true")]],
    content := "" }

/-- The signed create event (`signedEvent` in the script). -/
def createSignedEvent (a : CreateArgs) : SignedEvent :=
  mkSignedEvent (createEventTemplate a) (a.idOf (createEventTemplate a)) a.pubkey

/-- The invite event template built when the create OK arrives for a
private group. -/
def inviteEventTemplate (a : CreateArgs) : EventTemplate :=
  { kind := NIP29_CREATE_INVITE, created_at := a.now,
    tags := [[.str "h", .str (createGroupId a)], [.str "code", createInviteCode a]],
    content := "" }

/-- The signed invite event. -/
def inviteSignedEvent (a : CreateArgs) : SignedEvent :=
  mkSignedEvent (inviteEventTemplate a) (a.idOf (inviteEventTemplate a)) a.pubkey

/-- The auth event the create script signs for a given AUTH frame. -/
def createAuthEvent (a : CreateArgs) (msg : Json) : SignedEvent :=
  mkSignedEvent (authEventTemplate a.relayUrl (msg.idx 1) a.now)
    (a.idOf (authEventTemplate a.relayUrl (msg.idx 1) a.now)) a.pubkey

/-- The REQ filter of the existence pre-check:
kinds [39000] and #d [groupId], on subscription label 'check'. -/
def checkFilter (a : CreateArgs) : ReqFilter :=
  { kinds := [NIP29_GROUP_METADATA], dTags := some [createGroupId a] }

/-- The mutable state of the create script's handler:
`authenticated` and `groupExists`. -/
structure CreateState where
  authenticated : Bool
  groupExists : Bool

/-- Initial state (both flags false). -/
def createInitState : CreateState := { authenticated := false, groupExists := false }

/-- The error message printed when the pre-check finds the group. -/
def groupExistsMsg (a : CreateArgs) : String :=
  "Group \"" ++ createGroupId a ++
    "\" already exists. Use a different name or delete the existing group first."

/-- The invite URL log line (URI-component encoding of the join
parameter is elided). -/
def inviteUrlMsg (a : CreateArgs) : String :=
  "Invite URL: " ++ a.sphereUrl ++ "/#/agents/chat?join=" ++
    createGroupId a ++ "/" ++ a.randCode

/-- The create script's ws message handler on an already-parsed frame:
updated state and actions in program order. -/
def createStep (a : CreateArgs) (st : CreateState) (msg : Json) :
    CreateState × List Action :=
  if jsStrEq (msg.idx 0) "AUTH" then
    ({ st with authenticated := true },
     [.log "Authenticating...",
      .sendFrame (.auth (createAuthEvent a msg)),
      .delayedLog 300 "Checking if group already exists...",
      .sendDelayedFrame 300 (.req "check" (checkFilter a))])
  else if jsStrEq (msg.idx 0) "EVENT" && jsStrEq (msg.idx 1) "check" then
    ({ st with groupExists := true }, [])
  else if jsStrEq (msg.idx 0) "EOSE" && jsStrEq (msg.idx 1) "check" then
    (st, .sendFrame (.close "check") ::
      (if st.groupExists then
        [.logErr (groupExistsMsg a) Json.undef, .wsClose]
      else
        [.log "Sending create group event...",
         .sendFrame (.event (createSignedEvent a))]))
  else if jsStrEq (msg.idx 0) "OK" then
    let eventId := msg.idx 1
    let success := msg.idx 2
    let message := msg.idx 3
    if jsStrEq eventId (createSignedEvent a).id then
      if success.truthy then
        (st, [.log "Group created!", .log ("Group ID: " ++ createGroupId a)] ++
          (if a.isPrivate && (createInviteCode a).truthy then
            [.log "Creating invite code...",
             .sendFrame (.event (inviteSignedEvent a))]
          else [.wsClose]))
      else
        (st, [.logErr "Failed to create group:" message, .wsClose])
    else if a.isPrivate then
      (st, (if success.truthy then
        [.log "Invite created!", .log (inviteUrlMsg a)]
      else
        [.logErr "Group created but invite failed:" message,
         .log ("Group ID: " ++ createGroupId a)]) ++ [.wsClose])
    else (st, [])
  else (st, [])

/-- The create script's handler on the raw inbound text (JSON.parse
uncaught on failure). -/
def createHandleRaw (a : CreateArgs) (st : CreateState) (s : String) :
    Except Unit (CreateState × List Action) :=
  match parseJson s with
  | none => .error ()
  | some m => .ok (createStep a st m)

/-- The create script's 15 second deadline handler. -/
def createTimeoutActions : List Action :=
  [.logErr "Timeout" Json.undef, .wsClose, .procExit 1]

/-- The create script's ws error handler. -/
def createErrorActions : List Action :=
  [.logErr "WebSocket error:" Json.undef, .procExit 1]

/-- State after the create handler has processed a list of inbound
frames from the initial state. -/
def createStateAfter (a : CreateArgs) (msgs : List Json) : CreateState :=
  msgs.foldl (fun st m => (createStep a st m).1) createInitState

/-- The actions the create handler emits for the i-th inbound frame of
a run. -/
def createActionsAt (a : CreateArgs) (msgs : List Json) (i : Nat) : List Action :=
  (createStep a (createStateAfter a (msgs.take i)) (msgs.getD i Json.undef)).2

/-- Frame-classification helpers (Boolean, on parsed frames). -/
def isAuthMsg (m : Json) : Bool := jsStrEq (m.idx 0) "AUTH"

def isEventCheck (m : Json) : Bool :=
  jsStrEq (m.idx 0) "EVENT" && jsStrEq (m.idx 1) "check"

def isEoseCheck (m : Json) : Bool :=
  jsStrEq (m.idx 0) "EOSE" && jsStrEq (m.idx 1) "check"

/- ------------------------------------------------------------------
   list-groups.js
   ------------------------------------------------------------------ -/

/-- The record pushed onto `groups` for one metadata event.  The name,
description and visibility fields hold whatever JavaScript value the
reconstruction produced; `created` keeps the raw created_at seconds
(the ISO date formatting is presentation). -/
structure GroupRecord where
  id : Json
  name : Json
  description : Json
  isPrivate : Json
  created : Int

/-- The content-JSON phase of the reconstruction: starting from the
defaults ('Unnamed', '', false), if event.content is truthy, parse it
(inside its own try block, so a parse failure just keeps the defaults)
and take metadata.name / metadata.about / metadata.private with
JavaScript ||.  A truthy non-string content either yields a value
without those properties or throws inside the inner try; both keep the
defaults. -/
def metaFromContent (content : Json) : Json × Json × Json :=
  let defaults : Json × Json × Json := (.str "Unnamed", .str "", .bool false)
  if content.truthy then
    match content with
    | .str s =>
      match parseJson s with
      | some metadata =>
        (jsOr (metadata.getField "name") defaults.1,
         jsOr (metadata.getField "about") defaults.2.1,
         jsOr (metadata.getField "private") defaults.2.2)
      | none => defaults
    | _ => defaults
  else defaults

/-- One iteration of `for (const tag of event.tags)`: the name, about,
public and private checks, assignments in program order. -/
def applyTag (acc : Json × Json × Json) (tag : Json) : Json × Json × Json :=
  let n0 := acc.1
  let d0 := acc.2.1
  let p0 := acc.2.2
  let n1 := if jsStrEq (tag.idx 0) "name" then tag.idx 1 else n0
  let d1 := if jsStrEq (tag.idx 0) "about" then tag.idx 1 else d0
  let p1 := if jsStrEq (tag.idx 0) "public" then Json.bool (jsStrEq (tag.idx 1) "false") else p0
  let p2 := if jsStrEq (tag.idx 0) "private" then Json.bool (jsStrEq (tag.idx 1) "true") else p1
  (n1, d1, p2)

/-- Whitespace trimmed by JavaScript ToNumber on strings (the common
code points). -/
def isJsSpace (c : Char) : Bool :=
  c = ' ' || c = '\t' || c = '\n' || c = '\r' ||
  c = Char.ofNat 11 || c = Char.ofNat 12 || c = Char.ofNat 0xa0 ||
  c = Char.ofNat 0x2028 || c = Char.ofNat 0x2029 || c = Char.ofNat 0xfeff

def natFromDecDigits (ds : List Char) : Nat :=
  ds.foldl (fun n c => n * 10 + (c.toNat - 48)) 0

def natFromHexDigits (ds : List Char) : Nat :=
  ds.foldl (fun n c => n * 16 + ((hexVal c).getD 0)) 0

def splitDigits (cs : List Char) : List Char × List Char := cs.span Char.isDigit

/-- Parse an optional decimal exponent part ('e'/'E', optional sign,
digits); `none` when an exponent marker is present but malformed. -/
def parseExp : List Char → Option (Int × List Char)
  | [] => some (0, [])
  | c :: cs =>
    if c = 'e' || c = 'E' then
      let sg : Bool × List Char := match cs with
        | s :: cs2 =>
          if s = '-' then (true, cs2)
          else if s = '+' then (false, cs2)
          else (false, s :: cs2)
        | [] => (false, [])
      let p := splitDigits sg.2
      if p.1.isEmpty then none
      else
        some ((if sg.1 then -(Int.ofNat (natFromDecDigits p.1))
               else Int.ofNat (natFromDecDigits p.1)), p.2)
    else some (0, c :: cs)

/-- Integer part of m * 10 ^ (e - f), where m carries f fractional
digits: the integer-seconds view of a decimal literal. -/
def decValue (m : Nat) (f : Nat) (e : Int) : Nat :=
  let d := e - Int.ofNat f
  if 0 ≤ d then m * 10 ^ d.toNat else m / 10 ^ (-d).toNat

/-- ToNumber of a trimmed, non-radix string: optional sign, decimal
digits with optional fraction and exponent; Infinity and malformed
input yield `none` (no finite value). -/
def strToNumberDec (cs0 : List Char) : Option Int :=
  let sp : Bool × List Char := match cs0 with
    | '-' :: r => (true, r)
    | '+' :: r => (false, r)
    | _ => (false, cs0)
  if sp.2 = ['I', 'n', 'f', 'i', 'n', 'i', 't', 'y'] then none
  else
    let p := splitDigits sp.2
    match p.2 with
    | '.' :: r1 =>
      let q := splitDigits r1
      if p.1.isEmpty ∧ q.1.isEmpty then none
      else
        match parseExp q.2 with
        | some (e, []) =>
          let v := decValue (natFromDecDigits (p.1 ++ q.1)) q.1.length e
          some (if sp.1 then -(Int.ofNat v) else Int.ofNat v)
        | _ => none
    | rest =>
      if p.1.isEmpty then none
      else
        match parseExp rest with
        | some (e, []) =>
          let v := decValue (natFromDecDigits p.1) 0 e
          some (if sp.1 then -(Int.ofNat v) else Int.ofNat v)
        | _ => none

/-- JavaScript ToNumber of a string, kept to its integer part: trimmed,
empty means 0, unsigned radix literals (0x/0b/0o) and signed decimal
literals convert, everything else (including Infinity) yields `none`,
standing for no finite value. -/
def strToNumber (s : String) : Option Int :=
  let cs := ((s.data.dropWhile isJsSpace).reverse.dropWhile isJsSpace).reverse
  match cs with
  | [] => some 0
  | '0' :: x :: ds =>
    if (x = 'x' || x = 'X') && !ds.isEmpty && ds.all (fun c => (hexVal c).isSome) then
      some (Int.ofNat (natFromHexDigits ds))
    else if (x = 'b' || x = 'B') && !ds.isEmpty && ds.all (fun c => c = '0' || c = '1') then
      some (Int.ofNat (ds.foldl (fun n c => n * 2 + (c.toNat - 48)) 0))
    else if (x = 'o' || x = 'O') && !ds.isEmpty && ds.all (fun c => '0' ≤ c && c ≤ '7') then
      some (Int.ofNat (ds.foldl (fun n c => n * 8 + (c.toNat - 48)) 0))
    else strToNumberDec cs
  | _ => strToNumberDec cs

mutual

/-- ToString of a value in Array.prototype.join position: null and
undefined become empty, arrays join recursively with commas. -/
def joinStr : Json → String
  | .null => ""
  | Json.undef => ""
  | .bool b => cond b "true" "false"
  | .num n => Int.repr n
  | .str s => s
  | .arr l => joinList l
  | .obj _ => "[object Object]"

/-- Array.prototype.join with the default comma separator. -/
def joinList : List Json → String
  | [] => ""
  | [x] => joinStr x
  | x :: y :: xs => joinStr x ++ "," ++ joinList (y :: xs)

end

/-- JavaScript ToNumber of a value (as in `event.created_at * 1000`),
kept to its integer part: null is 0, booleans are 0/1, strings convert
via `strToNumber`, arrays convert through their join string, undefined
and plain objects give NaN (`none`). -/
def jsToNumber : Json → Option Int
  | .null => some 0
  | Json.undef => none
  | .bool b => some (if b then 1 else 0)
  | .num n => some n
  | .str s => strToNumber s
  | .arr l => strToNumber (joinList l)
  | .obj _ => none

/-- The Date range check behind new Date(seconds * 1000).toISOString():
the time value must stay within 8.64e15 milliseconds, i.e. 8.64e12
seconds (sub-second precision collapsed to integer seconds). -/
def dateInRange (c : Int) : Bool := c.natAbs ≤ 8640000000000

/-- The EVENT-branch reconstruction of one metadata event, inside its
try block: `none` when the branch throws and the event is skipped —
event.tags not an array, or `new Date(event.created_at * 1000)`
producing no valid time (created_at coerces to NaN, an infinity, or a
value beyond the Date range).  Null, booleans, numbers, numeric
strings and arrays that join to numeric strings all coerce to valid
seconds and the record is pushed. -/
def reconstructGroup (event : Json) : Option GroupRecord :=
  match event.getField "tags" with
  | .arr tagList =>
    let m := tagList.foldl applyTag (metaFromContent (event.getField "content"))
    let gid := jsOr
      (match tagList.find? (fun t => jsStrEq (t.idx 0) "d") with
       | some t => t.idx 1
       | none => Json.undef)
      (.str "unknown")
    match jsToNumber (event.getField "created_at") with
    | some c =>
      if dateInRange c then
        some { id := gid, name := m.1, description := m.2.1,
               isPrivate := m.2.2, created := c }
      else none
    | none => none
  | _ => none

/-- Configuration of a list-groups run.  `hasKey` is whether a valid
mnemonic was supplied (privateKeyBytes non-null). -/
structure ListArgs where
  relayUrl : String
  hasKey : Bool
  now : Nat
  idOf : EventTemplate → String
  pubkey : String

/-- The mutable state of the list script: the `authenticated` flag and
the accumulated `groups`. -/
structure ListState where
  authenticated : Bool
  groups : List GroupRecord

/-- Initial list-groups state. -/
def listInitState : ListState := { authenticated := false, groups := [] }

/-- The auth event the list script signs for a given AUTH frame. -/
def listAuthEvent (a : ListArgs) (msg : Json) : SignedEvent :=
  mkSignedEvent (authEventTemplate a.relayUrl (msg.idx 1) a.now)
    (a.idOf (authEventTemplate a.relayUrl (msg.idx 1) a.now)) a.pubkey

/-- The REQ filter of the groups listing: kinds [39000], no #d. -/
def groupsFilter : ReqFilter := { kinds := [NIP29_GROUP_METADATA], dTags := none }

/-- The list script's ws message handler on an already-parsed frame.
The EOSE console report is condensed to one log action. -/
def listStep (a : ListArgs) (st : ListState) (msg : Json) :
    ListState × List Action :=
  if jsStrEq (msg.idx 0) "AUTH" && a.hasKey && !st.authenticated then
    ({ st with authenticated := true },
     [.log "Authenticating...",
      .sendFrame (.auth (listAuthEvent a msg)),
      .sendDelayedFrame 300 (.req "groups" groupsFilter)])
  else if jsStrEq (msg.idx 0) "EVENT" && jsStrEq (msg.idx 1) "groups" then
    match reconstructGroup (msg.idx 2) with
    | some g => ({ st with groups := st.groups ++ [g] }, [])
    | none => (st, [])
  else if jsStrEq (msg.idx 0) "EOSE" then
    (st,
     [(if st.groups.length = 0 then .log "No groups found on this relay."
       else .log ("Found " ++ Nat.repr st.groups.length ++ " group(s):")),
      .wsClose])
  else if jsStrEq (msg.idx 0) "OK" && (msg.idx 1).truthy && !(msg.idx 2).truthy then
    (st, [.logErr "Authentication failed:" (msg.idx 3)])
  else (st, [])

/-- The list script's handler on the raw inbound text (JSON.parse
uncaught on failure). -/
def listHandleRaw (a : ListArgs) (st : ListState) (s : String) :
    Except Unit (ListState × List Action) :=
  match parseJson s with
  | none => .error ()
  | some m => .ok (listStep a st m)

/-- The list script's 5 second deadline handler: a notice when nothing
arrived, then ws.close() — no failure and no exit code. -/
def listTimeoutActions (groups : List GroupRecord) : List Action :=
  (if groups.length = 0 then [Action.log "No groups found (or timeout reached)."]
   else []) ++ [Action.wsClose]

/-- An action that surfaces a failure: an error log or a non-zero
process exit. -/
def isFailureAction : Action → Bool
  | .logErr _ _ => true
  | .procExit c => c != 0
  | _ => false

/- ------------------------------------------------------------------
   Concrete run configurations used by witnesses.
   ------------------------------------------------------------------ -/

/-- OK frames addressed to the submitted delete event. -/
def isOkForDelete (a : DeleteArgs) (m : Json) : Bool :=
  jsStrEq (m.idx 0) "OK" && jsStrEq (m.idx 1) (deleteSignedEvent a).id

/-- A concrete delete-group configuration. -/
def dArgs0 : DeleteArgs :=
  { relayUrl := "ws://localhost:3334", groupId := "ghost-group", now := 0,
    idOf := fun _ => "did", pubkey := "pk" }

/-- A concrete public create-group configuration. -/
def cArgs0 : CreateArgs :=
  { relayUrl := "ws://localhost:3334", sphereUrl := "http://localhost:5173",
    name := "general", description := some "General discussion",
    isPrivate := false, nowMs := 0, now := 0,
    idOf := fun _ => "cid", pubkey := "pk", randCode := "aaaabbbbcccc" }

/-- A concrete private create-group configuration. -/
def cArgsPriv : CreateArgs :=
  { relayUrl := "ws://localhost:3334", sphereUrl := "http://localhost:5173",
    name := "team", description := some "Team only",
    isPrivate := true, nowMs := 0, now := 0,
    idOf := fun _ => "createid", pubkey := "pk", randCode := "abcd1234efgh" }

/-- A concrete list-groups configuration. -/
def lArgs0 : ListArgs :=
  { relayUrl := "ws://localhost:3334", hasKey := false, now := 0,
    idOf := fun _ => "aid", pubkey := "pk" }

/-- A metadata event with JSON content naming X/Y, two name tags (the
later one Z), an about tag, a public tag and a null created_at
(exercises tag-over-content, later-over-earlier and the numeric
coercion of created_at). -/
def sampleMetaEvent : Json :=
  Json.obj [("content", Json.str "\x7b\"name\":\"X\",\"about\":\"Y\"\x7d"),
            ("tags", Json.arr [Json.arr [Json.str "name", Json.str "W"],
                               Json.arr [Json.str "name", Json.str "Z"],
                               Json.arr [Json.str "about", Json.str "B"],
                               Json.arr [Json.str "public", Json.str "false"],
                               Json.arr [Json.str "d", Json.str "g"]]),
            ("created_at", Json.null)]

/-- The record the list script reconstructs from sampleMetaEvent:
every tag value overrides the content, and the null created_at
coerces to second 0. -/
def sampleMetaRecord : GroupRecord :=
  { id := Json.str "g", name := Json.str "Z", description := Json.str "B",
    isPrivate := Json.bool true, created := 0 }

/-- A conformant create-run message trace: AUTH challenge, one matching
metadata event on 'check', then the end marker. -/
def c2Msgs : List Json :=
  [Json.arr [Json.str "AUTH", Json.str "nonce123"],
   Json.arr [Json.str "EVENT", Json.str "check", Json.obj []],
   Json.arr [Json.str "EOSE", Json.str "check"]]

/- ------------------------------------------------------------------
   Helper lemmas.
   ------------------------------------------------------------------ -/

theorem jsStrEq_true {j : Json} {s : String} (h : jsStrEq j s = true) :
    j = Json.str s := by
  cases j <;> simp_all [jsStrEq]

theorem jsStrEq_self (s : String) : jsStrEq (Json.str s) s = true := by
  simp [jsStrEq]

theorem jsStrEq_str (s t : String) : jsStrEq (Json.str s) t = (s == t) := rfl

/- ------------------------------------------------------------------
   Claim theorems.
   ------------------------------------------------------------------ -/

/-- C5: for every input name the normalized group identifier is the
name lowercased with non-alphanumeric characters stripped and
truncated to 24 characters; when that is empty a non-empty
time-derived fallback is used instead, so normalization never yields
an empty identifier; in particular "Team Chat!!" normalizes to
"teamchat". -/
theorem generateGroupId_spec (nowMs : Nat) (name : String) :
    generateGroupId nowMs name ≠ "" ∧
    (generateGroupIdCore name ≠ "" →
      generateGroupId nowMs name = generateGroupIdCore name) ∧
    (generateGroupIdCore name = "" →
      generateGroupId nowMs name = "group" ++ toBase36 nowMs) ∧
    generateGroupId nowMs "Team Chat!!" = "teamchat" := by
  have hfall : ("group" ++ toBase36 nowMs) ≠ "" := by
    intro hc
    have hlen := congrArg String.length hc
    rw [String.length_append] at hlen
    have h5 : ("group" : String).length = 5 := rfl
    have hz : ("" : String).length = 0 := rfl
    rw [h5, hz] at hlen
    omega
  refine ⟨?_, ?_, ?_, ?_⟩
  · by_cases h : generateGroupIdCore name = ""
    · simpa [generateGroupId, h] using hfall
    · simp [generateGroupId, h]
  · intro h
    simp [generateGroupId, h]
  · intro h
    simp [generateGroupId, h]
  · have hc : generateGroupIdCore "Team Chat!!" = "teamchat" := rfl
    simp [generateGroupId, hc]

/-- C5 witness: an all-symbol name falls back to the time-derived
identifier, and the concrete example normalizes as claimed. -/
theorem generateGroupId_spec_witness :
    generateGroupId 0 "!!!" = "group" ++ toBase36 0 ∧
    generateGroupId 0 "Team Chat!!" = "teamchat" :=
  ⟨(generateGroupId_spec 0 "!!!").2.2.1 rfl, (generateGroupId_spec 0 "Team Chat!!").2.2.2⟩

/-- C3: when the delete script receives an OK frame carrying the
submitted delete event's id with accepted = false, it surfaces the
relay's message verbatim in the failure report and still closes the
transport afterwards. -/
theorem delete_rejection_surfaces_message (a : DeleteArgs) (msg : Json) (m : String)
    (h0 : msg.idx 0 = Json.str "OK")
    (h1 : msg.idx 1 = Json.str (deleteSignedEvent a).id)
    (h2 : msg.idx 2 = Json.bool false)
    (h3 : msg.idx 3 = Json.str m) :
    deleteHandleParsed a msg =
      [Action.logErr "Failed to delete group:" (Json.str m), Action.wsClose] := by
  simp [deleteHandleParsed, h0, h1, h2, h3, jsStrEq, Json.truthy]

/-- C3 witness: Delete("ghost-group") receiving
["OK", id, false, "group not found"] reports that message and closes. -/
theorem delete_rejection_witness :
    deleteHandleParsed dArgs0
        (Json.arr [Json.str "OK", Json.str "did", Json.bool false,
                   Json.str "group not found"]) =
      [Action.logErr "Failed to delete group:" (Json.str "group not found"),
       Action.wsClose] :=
  delete_rejection_surfaces_message dArgs0 _ "group not found" rfl rfl rfl rfl

/-- C1: on any AUTH frame carrying a challenge string, the delete and
create handlers each emit exactly one AUTH (AuthSubmit) frame, whose
signed event has kind 22242 and whose tag list is exactly the relay
address as dialed followed by the challenge verbatim, in that order. -/
theorem auth_response_binds_challenge (da : DeleteArgs) (ca : CreateArgs)
    (st : CreateState) (msg : Json) (c : String)
    (h0 : msg.idx 0 = Json.str "AUTH")
    (h1 : msg.idx 1 = Json.str c) :
    (∃ e, authFramesOf (deleteHandleParsed da msg) = [e] ∧
       e.kind = 22242 ∧
       e.tags = [[Json.str "relay", Json.str da.relayUrl],
                 [Json.str "challenge", Json.str c]]) ∧
    (∃ e, authFramesOf (createStep ca st msg).2 = [e] ∧
       e.kind = 22242 ∧
       e.tags = [[Json.str "relay", Json.str ca.relayUrl],
                 [Json.str "challenge", Json.str c]]) := by
  constructor
  · refine ⟨deleteAuthEvent da msg, ?_, rfl, ?_⟩
    · simp [deleteHandleParsed, h0, jsStrEq, authFramesOf, sentFrames]
    · simp [deleteAuthEvent, mkSignedEvent, authEventTemplate, h1]
  · refine ⟨createAuthEvent ca msg, ?_, rfl, ?_⟩
    · simp [createStep, h0, jsStrEq, authFramesOf, sentFrames]
    · simp [createAuthEvent, mkSignedEvent, authEventTemplate, h1]

/-- C1 witness: the scenario frame ["AUTH","nonce123"] produces the
single bound auth event in both scripts. -/
theorem auth_response_binds_challenge_witness :
    (∃ e, authFramesOf
        (deleteHandleParsed dArgs0 (Json.arr [Json.str "AUTH", Json.str "nonce123"])) = [e] ∧
       e.kind = 22242 ∧
       e.tags = [[Json.str "relay", Json.str dArgs0.relayUrl],
                 [Json.str "challenge", Json.str "nonce123"]]) :=
  (auth_response_binds_challenge dArgs0 cArgs0 createInitState
    (Json.arr [Json.str "AUTH", Json.str "nonce123"]) "nonce123" rfl rfl).1

/-- C4 counterexample: an inbound message that is not valid JSON makes
JSON.parse throw outside any try block in the delete and list message
handlers, so processing it raises rather than dropping the frame. -/
theorem malformed_input_raises :
    deleteHandleRaw dArgs0 "hello" = Except.error () ∧
    listHandleRaw lArgs0 listInitState "hello" = Except.error () :=
  ⟨rfl, rfl⟩

/-- C4 (amended): a frame that parses as JSON but whose first element
selects no known variant is ignored by all three handlers with no
actions and no state change; a message that fails JSON parsing,
however, raises an uncaught error instead of being dropped. -/
theorem unknown_frames_ignored (da : DeleteArgs) (ca : CreateArgs) (la : ListArgs)
    (cst : CreateState) (lst : ListState) (msg : Json)
    (h : (jsStrEq (msg.idx 0) "AUTH" || jsStrEq (msg.idx 0) "EVENT" ||
          jsStrEq (msg.idx 0) "EOSE" || jsStrEq (msg.idx 0) "OK") = false) :
    deleteHandleParsed da msg = [] ∧
    createStep ca cst msg = (cst, []) ∧
    listStep la lst msg = (lst, []) ∧
    (∀ s, parseJson s = none → deleteHandleRaw da s = Except.error ()) := by
  simp only [Bool.or_eq_false_iff] at h
  obtain ⟨⟨⟨hA, hE⟩, hS⟩, hO⟩ := h
  refine ⟨?_, ?_, ?_, ?_⟩
  · simp [deleteHandleParsed, hA, hO]
  · simp [createStep, hA, hE, hS, hO]
  · simp [listStep, hA, hE, hS, hO]
  · intro s hs
    simp [deleteHandleRaw, hs]

/-- C4 witness: a NOTICE frame is ignored by the delete handler. -/
theorem unknown_frames_ignored_witness :
    deleteHandleParsed dArgs0 (Json.arr [Json.str "NOTICE", Json.str "hi"]) = [] :=
  (unknown_frames_ignored dArgs0 cArgs0 lArgs0 createInitState listInitState
    (Json.arr [Json.str "NOTICE", Json.str "hi"]) (by decide)).1

/-- C9 counterexample: in a private create run, an OK frame whose id
("authid", the relay's ack of the authentication event) matches no
submitted event is not dropped — the handler treats it as the invite
response, logs success and closes the connection. -/
theorem ok_routing_counterexample :
    (createStep cArgsPriv { authenticated := true, groupExists := false }
        (Json.arr [Json.str "OK", Json.str "authid", Json.bool true, Json.str ""])).2 =
      [Action.log "Invite created!", Action.log (inviteUrlMsg cArgsPriv),
       Action.wsClose] ∧
    "authid" ≠ (createSignedEvent cArgsPriv).id :=
  ⟨rfl, by decide⟩

/-- C9 (amended): the delete script drops any OK frame whose id does
not match the submitted delete event, and the create script drops a
non-matching OK only when the group is public; when the group is
private a non-matching OK is consumed as the invite response. -/
theorem ok_routing (da : DeleteArgs) (ca : CreateArgs) (st : CreateState) (msg : Json)
    (h0 : msg.idx 0 = Json.str "OK")
    (hd : jsStrEq (msg.idx 1) (deleteSignedEvent da).id = false)
    (hc : jsStrEq (msg.idx 1) (createSignedEvent ca).id = false)
    (hpub : ca.isPrivate = false) :
    deleteHandleParsed da msg = [] ∧ createStep ca st msg = (st, []) := by
  constructor
  · simp [deleteHandleParsed, h0, hd, jsStrEq_str]
  · simp [createStep, h0, hc, hpub, jsStrEq_str]

/-- C9 witness: a public create run and a delete run both drop an OK
frame with an unrelated id. -/
theorem ok_routing_witness :
    deleteHandleParsed dArgs0
        (Json.arr [Json.str "OK", Json.str "zzz", Json.bool true, Json.str ""]) = [] ∧
    createStep cArgs0 createInitState
        (Json.arr [Json.str "OK", Json.str "zzz", Json.bool true, Json.str ""]) =
      (createInitState, []) :=
  ok_routing dArgs0 cArgs0 createInitState
    (Json.arr [Json.str "OK", Json.str "zzz", Json.bool true, Json.str ""])
    rfl (by decide) (by decide) rfl

/-- C10: the delete event is submitted only from the AUTH-challenge
branch, after the authentication response frame, and if no AUTH
challenge (and hence no OK for the never-submitted delete event)
arrives, the message handler emits nothing at all, so the run can only
end through the deadline handler, which closes the transport and exits
with failure. -/
theorem delete_submitted_only_in_auth_path (a : DeleteArgs) (msgs : List Json)
    (h1 : ∀ m ∈ msgs, isAuthMsg m = false)
    (h2 : ∀ m ∈ msgs, isOkForDelete a m = false) :
    (∀ msg, OutFrame.event (deleteSignedEvent a) ∈ sentFrames (deleteHandleParsed a msg) →
       isAuthMsg msg = true ∧
       deleteHandleParsed a msg =
         [Action.log "Authenticating...",
          Action.sendFrame (OutFrame.auth (deleteAuthEvent a msg)),
          Action.delayedLog 500 "Sending delete group event...",
          Action.sendDelayedFrame 500 (OutFrame.event (deleteSignedEvent a))]) ∧
    msgs.flatMap (deleteHandleParsed a) = [] ∧
    deleteTimeoutActions =
      [Action.logErr "Timeout" Json.undef, Action.wsClose, Action.procExit 1] := by
  refine ⟨?_, ?_, rfl⟩
  · intro msg hmem
    by_cases hA : jsStrEq (msg.idx 0) "AUTH"
    · exact ⟨hA, by simp [deleteHandleParsed, hA]⟩
    · exfalso
      by_cases hO : jsStrEq (msg.idx 0) "OK"
      · by_cases hid : jsStrEq (msg.idx 1) (deleteSignedEvent a).id
        · by_cases hs : (msg.idx 2).truthy <;>
            simp [deleteHandleParsed, hA, hO, hid, hs, sentFrames] at hmem
        · simp [deleteHandleParsed, hA, hO, hid, sentFrames] at hmem
      · simp [deleteHandleParsed, hA, hO, sentFrames] at hmem
  · induction msgs with
    | nil => rfl
    | cons m ms ih =>
      have hm1 := h1 m (by simp)
      have hm2 := h2 m (by simp)
      have hrest := ih (fun x hx => h1 x (by simp [hx])) (fun x hx => h2 x (by simp [hx]))
      have hempty : deleteHandleParsed a m = [] := by
        simp only [isAuthMsg] at hm1
        simp only [isOkForDelete, Bool.and_eq_false_iff] at hm2
        rcases hm2 with hO | hid
        · simp [deleteHandleParsed, hm1, hO]
        · by_cases hO : jsStrEq (m.idx 0) "OK"
          · simp [deleteHandleParsed, hm1, hO, hid]
          · simp [deleteHandleParsed, hm1, hO]
      simp [List.flatMap, hempty] at hrest ⊢
      exact hrest

/-- C10 witness: a run whose relay never sends AUTH (a NOTICE and an
unrelated OK) makes the delete handler emit nothing. -/
theorem delete_submitted_only_in_auth_path_witness :
    ([Json.arr [Json.str "NOTICE", Json.str "hi"],
      Json.arr [Json.str "OK", Json.str "other", Json.bool true, Json.str ""]] :
        List Json).flatMap (deleteHandleParsed dArgs0) = [] :=
  (delete_submitted_only_in_auth_path dArgs0
    [Json.arr [Json.str "NOTICE", Json.str "hi"],
     Json.arr [Json.str "OK", Json.str "other", Json.bool true, Json.str ""]]
    (by decide) (by decide)).2.1

/-- C7 counterexample: when the create script's deadline fires before
EOSE, its handler sends no frames at all — in particular no Close on
the 'check' subscription label; it only closes the socket and exits. -/
theorem check_close_missing_on_timeout :
    OutFrame.close "check" ∉ sentFrames createTimeoutActions := by
  simp [sentFrames, createTimeoutActions]

/-- C7 (amended): the Close on the 'check' label is issued first thing
on the EOSE path whatever the check's outcome; when the deadline
elapses or a transport error occurs before EOSE, no Close frame is
sent — the connection is torn down instead. -/
theorem check_close_on_eose (a : CreateArgs) (st : CreateState) (msg : Json)
    (h : isEoseCheck msg = true) :
    (∃ rest, (createStep a st msg).2 =
        Action.sendFrame (OutFrame.close "check") :: rest) ∧
    sentFrames createTimeoutActions = [] ∧
    Action.wsClose ∈ createTimeoutActions ∧
    sentFrames createErrorActions = [] := by
  simp only [isEoseCheck, Bool.and_eq_true] at h
  obtain ⟨hS, hC⟩ := h
  have hS' := jsStrEq_true hS
  refine ⟨?_, rfl, ?_, rfl⟩
  · exact ⟨(if st.groupExists then
        [Action.logErr (groupExistsMsg a) Json.undef, Action.wsClose]
      else
        [Action.log "Sending create group event...",
         Action.sendFrame (OutFrame.event (createSignedEvent a))]),
      by simp [createStep, hS', hC, jsStrEq_str]⟩
  · simp [createTimeoutActions]

/-- C7 witness: on the concrete EOSE frame for 'check' the first action
is the Close frame on that label. -/
theorem check_close_on_eose_witness :
    ((createStep cArgs0 createInitState
        (Json.arr [Json.str "EOSE", Json.str "check"])).2).head? =
      some (Action.sendFrame (OutFrame.close "check")) := by
  obtain ⟨rest, hr⟩ :=
    (check_close_on_eose cArgs0 createInitState
      (Json.arr [Json.str "EOSE", Json.str "check"]) (by decide)).1
  rw [hr]
  rfl

/-- C8 counterexample: the list script's deadline handler concludes
without any Timeout failure — no error report and no non-zero exit —
it just logs a notice and closes the socket. -/
theorem list_timeout_no_failure :
    (listTimeoutActions []).filter isFailureAction = [] ∧
    Action.wsClose ∈ listTimeoutActions [] := by
  refine ⟨rfl, ?_⟩
  simp [listTimeoutActions]

/-- C8 (amended): every deadline handler tears the transport down; the
delete and create handlers surface a Timeout failure (error report and
exit code 1), while the list handler closes without any failure. -/
theorem deadline_handlers (gs : List GroupRecord) :
    deleteTimeoutActions.any isFailureAction = true ∧
    Action.wsClose ∈ deleteTimeoutActions ∧
    Action.procExit 1 ∈ deleteTimeoutActions ∧
    createTimeoutActions.any isFailureAction = true ∧
    Action.wsClose ∈ createTimeoutActions ∧
    Action.procExit 1 ∈ createTimeoutActions ∧
    Action.wsClose ∈ listTimeoutActions gs ∧
    (listTimeoutActions gs).all (fun x => !isFailureAction x) = true := by
  refine ⟨rfl, ?_, ?_, rfl, ?_, ?_, ?_, ?_⟩ <;>
    by_cases h : gs.length = 0 <;>
    simp [deleteTimeoutActions, createTimeoutActions, listTimeoutActions,
          isFailureAction, h]

/-- C8 witness: the delete deadline handler exits with code 1. -/
theorem deadline_handlers_witness : Action.procExit 1 ∈ deleteTimeoutActions :=
  (deadline_handlers []).2.2.1

theorem foldl_applyTag_no_name (l : List Json) (acc : Json × Json × Json)
    (h : l.all (fun u => !(jsStrEq (u.idx 0) "name")) = true) :
    (l.foldl applyTag acc).1 = acc.1 := by
  induction l generalizing acc with
  | nil => rfl
  | cons u us ih =>
    simp only [List.all_cons, Bool.and_eq_true, Bool.not_eq_true'] at h
    obtain ⟨hu, hus⟩ := h
    rw [List.foldl_cons, ih (applyTag acc u) (by simpa using hus)]
    simp [applyTag, hu]

theorem foldl_applyTag_no_about (l : List Json) (acc : Json × Json × Json)
    (h : l.all (fun u => !(jsStrEq (u.idx 0) "about")) = true) :
    (l.foldl applyTag acc).2.1 = acc.2.1 := by
  induction l generalizing acc with
  | nil => rfl
  | cons u us ih =>
    simp only [List.all_cons, Bool.and_eq_true, Bool.not_eq_true'] at h
    obtain ⟨hu, hus⟩ := h
    rw [List.foldl_cons, ih (applyTag acc u) (by simpa using hus)]
    simp [applyTag, hu]

theorem foldl_applyTag_no_vis (l : List Json) (acc : Json × Json × Json)
    (h : l.all (fun u =>
        !(jsStrEq (u.idx 0) "public" || jsStrEq (u.idx 0) "private")) = true) :
    (l.foldl applyTag acc).2.2 = acc.2.2 := by
  induction l generalizing acc with
  | nil => rfl
  | cons u us ih =>
    simp only [List.all_cons, Bool.and_eq_true, Bool.not_eq_true',
               Bool.or_eq_false_iff] at h
    obtain ⟨⟨hu1, hu2⟩, hus⟩ := h
    rw [List.foldl_cons, ih (applyTag acc u) (by simpa using hus)]
    simp [applyTag, hu1, hu2]

/-- C6: for every metadata event the list script reconstructs, each
field's value comes from the last tag of that field when one exists —
tags are read in order, a later tag overrides an earlier one of the
same field, and any tag value overrides whatever the JSON content
supplied: the last 'name' tag sets the display name, the last 'about'
tag sets the description, and the last visibility tag ('public' or
'private') sets the visibility flag. -/
theorem metadata_tag_precedence (event : Json) (tagList pre post : List Json)
    (t : Json) (rec : GroupRecord)
    (htags : event.getField "tags" = Json.arr tagList)
    (hsplit : tagList = pre ++ t :: post)
    (hrec : reconstructGroup event = some rec) :
    (jsStrEq (t.idx 0) "name" = true →
      post.all (fun u => !(jsStrEq (u.idx 0) "name")) = true →
      rec.name = t.idx 1) ∧
    (jsStrEq (t.idx 0) "about" = true →
      post.all (fun u => !(jsStrEq (u.idx 0) "about")) = true →
      rec.description = t.idx 1) ∧
    (jsStrEq (t.idx 0) "public" = true →
      post.all (fun u =>
        !(jsStrEq (u.idx 0) "public" || jsStrEq (u.idx 0) "private")) = true →
      rec.isPrivate = Json.bool (jsStrEq (t.idx 1) "false")) ∧
    (jsStrEq (t.idx 0) "private" = true →
      post.all (fun u =>
        !(jsStrEq (u.idx 0) "public" || jsStrEq (u.idx 0) "private")) = true →
      rec.isPrivate = Json.bool (jsStrEq (t.idx 1) "true")) := by
  rcases hn : jsToNumber (event.getField "created_at") with _ | c <;>
    simp only [reconstructGroup, htags, hn] at hrec
  · exact Option.noConfusion hrec
  by_cases hr : dateInRange c
  case neg =>
    rw [if_neg (by simpa using hr)] at hrec
    exact Option.noConfusion hrec
  rw [if_pos (by simpa using hr)] at hrec
  injection hrec with h
  have hname_eq : rec.name =
      (tagList.foldl applyTag (metaFromContent (event.getField "content"))).1 := by
    rw [← h]
  have hdesc_eq : rec.description =
      (tagList.foldl applyTag (metaFromContent (event.getField "content"))).2.1 := by
    rw [← h]
  have hpriv_eq : rec.isPrivate =
      (tagList.foldl applyTag (metaFromContent (event.getField "content"))).2.2 := by
    rw [← h]
  refine ⟨?_, ?_, ?_, ?_⟩
  · intro hname hlast
    rw [hname_eq, hsplit, List.foldl_append, List.foldl_cons,
        foldl_applyTag_no_name post _ hlast]
    simp [applyTag, hname]
  · intro habout hlast
    rw [hdesc_eq, hsplit, List.foldl_append, List.foldl_cons,
        foldl_applyTag_no_about post _ hlast]
    simp [applyTag, habout]
  · intro hpub hlast
    have ht0 := jsStrEq_true hpub
    rw [hpriv_eq, hsplit, List.foldl_append, List.foldl_cons,
        foldl_applyTag_no_vis post _ hlast]
    simp [applyTag, hpub, ht0, jsStrEq_str]
  · intro hprivtag hlast
    rw [hpriv_eq, hsplit, List.foldl_append, List.foldl_cons,
        foldl_applyTag_no_vis post _ hlast]
    simp [applyTag, hprivtag]

/-- C6 witness: the event with content naming X/Y, a later name tag Z,
an about tag B, a public 'false' tag and a null created_at (which the
script coerces to second 0 and pushes) reconstructs with name Z,
description B and private visibility — every tag overriding the
content. -/
theorem metadata_tag_precedence_witness :
    sampleMetaRecord.name = Json.str "Z" ∧
    sampleMetaRecord.description = Json.str "B" ∧
    sampleMetaRecord.isPrivate = Json.bool true :=
  ⟨(metadata_tag_precedence sampleMetaEvent
      [Json.arr [Json.str "name", Json.str "W"],
       Json.arr [Json.str "name", Json.str "Z"],
       Json.arr [Json.str "about", Json.str "B"],
       Json.arr [Json.str "public", Json.str "false"],
       Json.arr [Json.str "d", Json.str "g"]]
      [Json.arr [Json.str "name", Json.str "W"]]
      [Json.arr [Json.str "about", Json.str "B"],
       Json.arr [Json.str "public", Json.str "false"],
       Json.arr [Json.str "d", Json.str "g"]]
      (Json.arr [Json.str "name", Json.str "Z"])
      sampleMetaRecord rfl rfl rfl).1 rfl rfl,
   (metadata_tag_precedence sampleMetaEvent
      [Json.arr [Json.str "name", Json.str "W"],
       Json.arr [Json.str "name", Json.str "Z"],
       Json.arr [Json.str "about", Json.str "B"],
       Json.arr [Json.str "public", Json.str "false"],
       Json.arr [Json.str "d", Json.str "g"]]
      [Json.arr [Json.str "name", Json.str "W"],
       Json.arr [Json.str "name", Json.str "Z"]]
      [Json.arr [Json.str "public", Json.str "false"],
       Json.arr [Json.str "d", Json.str "g"]]
      (Json.arr [Json.str "about", Json.str "B"])
      sampleMetaRecord rfl rfl rfl).2.1 rfl rfl,
   (metadata_tag_precedence sampleMetaEvent
      [Json.arr [Json.str "name", Json.str "W"],
       Json.arr [Json.str "name", Json.str "Z"],
       Json.arr [Json.str "about", Json.str "B"],
       Json.arr [Json.str "public", Json.str "false"],
       Json.arr [Json.str "d", Json.str "g"]]
      [Json.arr [Json.str "name", Json.str "W"],
       Json.arr [Json.str "name", Json.str "Z"],
       Json.arr [Json.str "about", Json.str "B"]]
      [Json.arr [Json.str "d", Json.str "g"]]
      (Json.arr [Json.str "public", Json.str "false"])
      sampleMetaRecord rfl rfl rfl).2.2.1 rfl rfl⟩

theorem createStep_submit_characterization (a : CreateArgs) (st : CreateState)
    (msg : Json)
    (hmem : OutFrame.event (createSignedEvent a) ∈ sentFrames (createStep a st msg).2) :
    isEoseCheck msg = true ∧ st.groupExists = false := by
  by_cases hA : jsStrEq (msg.idx 0) "AUTH"
  · exfalso
    simp [createStep, hA, sentFrames] at hmem
  by_cases hE : jsStrEq (msg.idx 0) "EVENT" && jsStrEq (msg.idx 1) "check"
  · exfalso
    simp [createStep, hA, hE, sentFrames] at hmem
  by_cases hS : jsStrEq (msg.idx 0) "EOSE" && jsStrEq (msg.idx 1) "check"
  · refine ⟨by simpa [isEoseCheck] using hS, ?_⟩
    by_cases hG : st.groupExists
    · exfalso
      simp [createStep, hA, hE, hS, hG, sentFrames] at hmem
    · simpa using hG
  by_cases hO : jsStrEq (msg.idx 0) "OK"
  · exfalso
    by_cases hid : jsStrEq (msg.idx 1) (createSignedEvent a).id
    · by_cases hsucc : (msg.idx 2).truthy
      · by_cases hpriv : a.isPrivate && (createInviteCode a).truthy
        · simp [createStep, hA, hE, hS, hO, hid, hsucc, hpriv, sentFrames] at hmem
          have hkind := congrArg SignedEvent.kind hmem
          simp [createSignedEvent, inviteSignedEvent, mkSignedEvent,
                createEventTemplate, inviteEventTemplate,
                NIP29_CREATE_GROUP, NIP29_CREATE_INVITE] at hkind
        · simp [createStep, hA, hE, hS, hO, hid, hsucc, hpriv, sentFrames] at hmem
      · simp [createStep, hA, hE, hS, hO, hid, hsucc, sentFrames] at hmem
    · by_cases hpriv : a.isPrivate
      · by_cases hsucc : (msg.idx 2).truthy <;>
          simp [createStep, hA, hE, hS, hO, hid, hpriv, hsucc, sentFrames] at hmem
      · simp [createStep, hA, hE, hS, hO, hid, hpriv, sentFrames] at hmem
  · exfalso
    simp [createStep, hA, hE, hS, hO, sentFrames] at hmem

theorem createStep_groupExists_mono (a : CreateArgs) (st : CreateState) (msg : Json)
    (h : st.groupExists = true) : ((createStep a st msg).1).groupExists = true := by
  unfold createStep
  repeat' split
  all_goals simp_all [apply_ite Prod.fst]

theorem createStep_eventCheck_sets (a : CreateArgs) (st : CreateState) (msg : Json)
    (h : isEventCheck msg = true) :
    ((createStep a st msg).1).groupExists = true := by
  simp only [isEventCheck, Bool.and_eq_true] at h
  obtain ⟨h0, h1⟩ := h
  have h0' := jsStrEq_true h0
  simp [createStep, h0', h1, jsStrEq_str]

theorem createStateAfter_mono (a : CreateArgs) (l : List Json) (st : CreateState)
    (h : st.groupExists = true) :
    (l.foldl (fun st m => (createStep a st m).1) st).groupExists = true := by
  induction l generalizing st with
  | nil => exact h
  | cons m ms ih => exact ih _ (createStep_groupExists_mono a st m h)

theorem createStateAfter_of_eventCheck (a : CreateArgs) (msgs : List Json) (k i : Nat)
    (hk : k < msgs.length) (hki : k < i)
    (hev : isEventCheck (msgs.getD k Json.undef) = true) :
    (createStateAfter a (msgs.take i)).groupExists = true := by
  have hsplit : msgs.take i = msgs.take (k + 1) ++ (msgs.take i).drop (k + 1) := by
    conv_lhs => rw [← List.take_append_drop (k + 1) (msgs.take i)]
    rw [List.take_take, Nat.min_eq_left (by omega)]
  rw [createStateAfter, hsplit, List.foldl_append]
  apply createStateAfter_mono
  rcases hx : msgs[k]? with _ | x
  · have hlen := List.getElem?_eq_none_iff.mp hx
    omega
  · have hg : msgs.getD k Json.undef = x := by
      simp [List.getD_eq_getElem?_getD, hx]
    have h2 : msgs.take (k + 1) = msgs.take k ++ [x] := by
      rw [List.take_succ, hx]
      rfl
    rw [h2, List.foldl_append]
    exact createStep_eventCheck_sets a _ x (hg ▸ hev)

theorem createStep_auth_issues_check (a : CreateArgs) (st : CreateState) (msg : Json)
    (h : isAuthMsg msg = true) :
    OutFrame.req "check" (checkFilter a) ∈ sentFrames (createStep a st msg).2 := by
  simp only [isAuthMsg] at h
  simp [createStep, h, sentFrames]

theorem createStep_eose_exists (a : CreateArgs) (st : CreateState) (msg : Json)
    (h : isEoseCheck msg = true) (hg : st.groupExists = true) :
    (createStep a st msg).2 =
      [Action.sendFrame (OutFrame.close "check"),
       Action.logErr (groupExistsMsg a) Json.undef, Action.wsClose] := by
  simp only [isEoseCheck, Bool.and_eq_true] at h
  obtain ⟨h0, h1⟩ := h
  have h0' := jsStrEq_true h0
  simp [createStep, h0', h1, hg, jsStrEq_str]

/-- C2: in every create run against a conformant relay (EOSE on the
check label only after an AUTH challenge, whose handler issues the
check REQ), the existence check precedes any create-group submission;
and once a matching metadata event has arrived on the check label
before EOSE, the EOSE handler releases the label, fails with the
group-already-exists error and closes, the create-group event having
never been and never being submitted after that point. -/
theorem create_precheck_first (a : CreateArgs) (msgs : List Json)
    (hconf : ∀ i, i < msgs.length → isEoseCheck (msgs.getD i Json.undef) = true →
       ∃ j, j < i ∧ isAuthMsg (msgs.getD j Json.undef) = true)
    (k i : Nat) (hk : k < msgs.length) (hi : i < msgs.length) (hki : k < i)
    (hev : isEventCheck (msgs.getD k Json.undef) = true)
    (heose : isEoseCheck (msgs.getD i Json.undef) = true) :
    (∀ m, m < msgs.length →
       OutFrame.event (createSignedEvent a) ∈ sentFrames (createActionsAt a msgs m) →
       ∃ j, j < m ∧
         OutFrame.req "check" (checkFilter a) ∈ sentFrames (createActionsAt a msgs j)) ∧
    createActionsAt a msgs i =
      [Action.sendFrame (OutFrame.close "check"),
       Action.logErr (groupExistsMsg a) Json.undef, Action.wsClose] ∧
    (∀ m, k < m → m < msgs.length →
       OutFrame.event (createSignedEvent a) ∉ sentFrames (createActionsAt a msgs m)) := by
  refine ⟨?_, ?_, ?_⟩
  · intro m hm hmem
    have hchar := createStep_submit_characterization a _ _ hmem
    obtain ⟨j, hj, hauth⟩ := hconf m hm hchar.1
    exact ⟨j, hj, createStep_auth_issues_check a _ _ hauth⟩
  · exact createStep_eose_exists a _ _ heose
      (createStateAfter_of_eventCheck a msgs k i hk hki hev)
  · intro m hkm hm hmem
    have hchar := createStep_submit_characterization a _ _ hmem
    have hg := createStateAfter_of_eventCheck a msgs k m hk hkm hev
    rw [hchar.2] at hg
    exact Bool.noConfusion hg

/-- C2 witness: the conformant trace AUTH, matching EVENT on 'check',
EOSE on 'check' makes the EOSE handler close the label and fail. -/
theorem create_precheck_first_witness :
    createActionsAt cArgs0 c2Msgs 2 =
      [Action.sendFrame (OutFrame.close "check"),
       Action.logErr (groupExistsMsg cArgs0) Json.undef, Action.wsClose] :=
  (create_precheck_first cArgs0 c2Msgs
    (by
      intro i hi he
      have hi3 : i < 3 := hi
      interval_cases i
      · exact absurd he (by decide)
      · exact absurd he (by decide)
      · exact ⟨0, by omega, by decide⟩)
    1 2 (by decide) (by decide) (by decide) (by decide) (by decide)).2.1
